import Mathlib

/-!
Verification development for the Tauri-Bevy demo frontend (Vue client).

The repository contains two versions of the client component:
* `src/src/App.vue` — structured path: `invoke("get_frame")` returns a record
  `{ data: Base64 string, width, height }`; the client decodes Base64 with
  `atob`, copies char codes into a `Uint8ClampedArray` and builds an
  `ImageData(bytes, width, height)`.
* `src/unnamed/part_000` — binary path: `fetch("http://frame.localhost/frame")`
  returns raw compressed bytes; the client takes the response blob, decodes it
  with `createImageBitmap`, and draws the bitmap; it also installs mouse
  handlers (`handleMouseDown/Up/Move`, `handleWheel`) that submit camera input
  via `invoke("send_mouse_input")`.

Numbers held in JavaScript variables (pixel coordinates, millisecond timings,
wheel deltas) are modelled as rationals; byte values as naturals.
-/

/-- Frontend performance metrics (interface FrontendPerf, both files). -/
structure FrontendPerf where
  tauri_call_ms : ℚ
  image_create_ms : ℚ
  canvas_draw_ms : ℚ
  total_loop_ms : ℚ
  frontend_fps : ℚ
deriving DecidableEq, Repr

/-- Performance statistics record received from the backend
(interface PerformanceStats, identical in both files; all fields are
TypeScript `number`s). -/
structure PerformanceStats where
  gpu_transfer_ms : ℚ
  data_processing_ms : ℚ
  frame_encoding_ms : ℚ
  bevy_fps : ℚ
  frame_count : ℚ
  data_size_kb : ℚ
  tauri_get_frame_ms : ℚ
  tauri_serialize_ms : ℚ
deriving DecidableEq, Repr

/-- Field names of the `PerformanceStats` record as declared in the source
(`src/unnamed/part_000` lines 26-35 and `src/src/App.vue` lines 31-40),
in declaration order. -/
def performanceStatsFields : List String :=
  ["gpu_transfer_ms", "data_processing_ms", "frame_encoding_ms", "bevy_fps",
   "frame_count", "data_size_kb", "tauri_get_frame_ms", "tauri_serialize_ms"]

/-- Field names of the stats record as the specification document writes them. -/
def specStatsFields : List String :=
  ["gpu_transfer_ms", "data_processing_ms", "frame_encoding_ms", "fps",
   "frame_count", "data_size_kb", "get_frame_ms", "serialize_ms"]

/-- Response of the structured frame call (interface FrameResponse,
`src/src/App.vue` lines 23-28): Base64 pixel data plus dimensions. -/
structure FrameResponse where
  data : String
  width : Nat
  height : Nat
deriving DecidableEq, Repr

/-- Result of the DOM `ImageData(bytes, sw, sh)` constructor. -/
structure ImageData where
  data : List Nat
  width : Nat
  height : Nat
deriving DecidableEq, Repr

/-- Value of a character in the standard Base64 alphabet, by code point
(A-Z, a-z, 0-9, plus, slash); `none` for a character outside the alphabet. -/
def b64CharVal (c : Char) : Option Nat :=
  if 65 ≤ c.toNat ∧ c.toNat ≤ 90 then some (c.toNat - 65)
  else if 97 ≤ c.toNat ∧ c.toNat ≤ 122 then some (c.toNat - 97 + 26)
  else if 48 ≤ c.toNat ∧ c.toNat ≤ 57 then some (c.toNat - 48 + 52)
  else if c.toNat = 43 then some 62
  else if c.toNat = 47 then some 63
  else none

/-- Bit-accumulating Base64 decode of a character list: each character
contributes 6 bits; a byte is emitted whenever 8 or more bits are buffered;
leftover bits at the end are discarded (forgiving-base64 step 10). -/
def decodeVals : List Char → Nat → Nat → Option (List Nat)
  | [], _, _ => some []
  | c :: rest, buffer, bits =>
    match b64CharVal c with
    | none => none
    | some v =>
      let buffer := buffer * 64 + v
      let bits := bits + 6
      if 8 ≤ bits then
        match decodeVals rest (buffer % 2 ^ (bits - 8)) (bits - 8) with
        | none => none
        | some bytes => some ((buffer / 2 ^ (bits - 8)) % 256 :: bytes)
      else decodeVals rest buffer bits

/-- Remove one trailing padding character (code point 61) if present. -/
def dropTrailingEq (cs : List Char) : List Char :=
  match cs.getLast? with
  | some c => if c.toNat = 61 then cs.dropLast else cs
  | none => cs

/-- Model of the browser's `atob` (forgiving-base64 decode, HTML standard):
strip ASCII whitespace; if the length is a multiple of four, remove up to two
trailing padding characters; fail if the remaining length is 1 mod 4, if any
padding character remains, or if any character is outside the alphabet;
otherwise decode 6 bits per character. Each output byte is one character of
the returned binary string. -/
def atobDecode (s : String) : Option (List Nat) :=
  let cs := s.toList.filter fun c =>
    ¬ (c.toNat = 9 ∨ c.toNat = 10 ∨ c.toNat = 12 ∨ c.toNat = 13 ∨ c.toNat = 32)
  let cs := if cs.length % 4 = 0 then dropTrailingEq (dropTrailingEq cs) else cs
  if cs.length % 4 = 1 then none
  else if cs.any (fun c => c.toNat = 61) then none
  else decodeVals cs 0 0

/-- Model of the DOM `ImageData(data, sw, sh)` constructor: fails unless the
byte length is a nonzero multiple of four, `sw` is nonzero, the pixel count is
divisible by `sw`, and the resulting height equals `sh`. -/
def mkImageData (bytes : List Nat) (sw sh : Nat) : Option ImageData :=
  if bytes.length = 0 then none
  else if bytes.length % 4 ≠ 0 then none
  else if sw = 0 then none
  else if (bytes.length / 4) % sw ≠ 0 then none
  else if bytes.length / 4 / sw ≠ sh then none
  else some ⟨bytes, sw, sh⟩

/-- Structured frame path of `renderLoop` (`src/src/App.vue` lines 133-149):
decode `response.data` with `atob`, copy each char code into a
`Uint8ClampedArray` (clamping to 255), and construct
`ImageData(bytes, response.width, response.height)`. -/
def structuredRender (resp : FrameResponse) : Option ImageData :=
  match atobDecode resp.data with
  | none => none
  | some binaryString =>
    let bytes := binaryString.map fun b => min b 255
    mkImageData bytes resp.width resp.height

/-- Processing steps a frame-retrieval path may apply, tagging each statement
of the two `renderLoop` bodies that touches the pixel data. -/
inductive RenderStep where
  | fetchFrameUrl
  | checkResponseOk
  | responseBlob
  | createBitmap
  | drawBitmapToCanvas
  | base64DecodeStep
  | base64EncodeStep
  | invokeGetFrame
  | constructImageData
  | putImageDataToCanvas
deriving DecidableEq, Repr

/-- Straight-line trace of the binary-path `renderLoop` body
(`src/unnamed/part_000` lines 241-262): fetch, ok-check, blob,
`createImageBitmap`, `drawImage`. -/
def binaryRenderSteps : List RenderStep :=
  [.fetchFrameUrl, .checkResponseOk, .responseBlob, .createBitmap,
   .drawBitmapToCanvas]

/-- Straight-line trace of the structured-path `renderLoop` body
(`src/src/App.vue` lines 133-149). -/
def structuredRenderSteps : List RenderStep :=
  [.invokeGetFrame, .base64DecodeStep, .constructImageData,
   .putImageDataToCanvas]

/-- Data flow of the binary path from response body to drawn image
(`src/unnamed/part_000` lines 249-260): the blob is the raw body bytes and
the drawn bitmap is the image decoder applied to the blob, nothing else. -/
def binaryFrameImage {Img : Type} (createImageBitmap : List Nat → Img)
    (body : List Nat) : Img :=
  let blob := body
  let imageBitmap := createImageBitmap blob
  imageBitmap

/-- Mouse button/position tracking (`mouseState`, `src/unnamed/part_000`
lines 98-103). -/
structure MouseState where
  leftButton : Bool
  rightButton : Bool
  lastX : ℚ
  lastY : ℚ
deriving DecidableEq, Repr

/-- Payload of an `invoke("send_mouse_input", ...)` submission
(`src/unnamed/part_000` lines 117-123). -/
structure MouseInputEvent where
  deltaX : ℚ
  deltaY : ℚ
  scrollDelta : ℚ
  leftButton : Bool
  rightButton : Bool
deriving DecidableEq, Repr

/-- The fields of a DOM MouseEvent the handlers read. -/
structure MouseEventData where
  button : Nat
  clientX : ℚ
  clientY : ℚ
deriving DecidableEq, Repr

/-- The field of a DOM WheelEvent the handler reads. -/
structure WheelEventData where
  deltaY : ℚ
deriving DecidableEq, Repr

/-- Model of `sendMouseInput` (`src/unnamed/part_000` lines 109-127): the
payload submitted to `invoke("send_mouse_input")` is built from the five
arguments; the response is unused and errors are silently ignored, so for any
outcome of the call the client state is returned unchanged and no error is
propagated. The middle component is the submitted payload. -/
def sendMouseInput {σ : Type} (st : σ) (deltaX deltaY scrollDelta : ℚ)
    (leftButton rightButton : Bool) (outcome : Except String Unit) :
    σ × MouseInputEvent × Option String :=
  match outcome with
  | .ok _ => (st, ⟨deltaX, deltaY, scrollDelta, leftButton, rightButton⟩, none)
  | .error _ => (st, ⟨deltaX, deltaY, scrollDelta, leftButton, rightButton⟩, none)

/-- `handleMouseDown` (`src/unnamed/part_000` lines 132-143): set the pressed
button's flag and record the pointer position. -/
def handleMouseDown (st : MouseState) (ev : MouseEventData) : MouseState :=
  let st :=
    if ev.button = 0 then { st with leftButton := true }
    else if ev.button = 2 then { st with rightButton := true }
    else st
  { st with lastX := ev.clientX, lastY := ev.clientY }

/-- `handleMouseUp` (`src/unnamed/part_000` lines 148-157): clear the released
button's flag, then send a zero-delta input event whose flags are the current
(post-release) button states. Returns the new state and the submitted event,
if any. -/
def handleMouseUp (st : MouseState) (ev : MouseEventData) :
    MouseState × Option MouseInputEvent :=
  if ev.button = 0 then
    let st := { st with leftButton := false }
    (st, some ⟨0, 0, 0, false, st.rightButton⟩)
  else if ev.button = 2 then
    let st := { st with rightButton := false }
    (st, some ⟨0, 0, 0, st.leftButton, false⟩)
  else (st, none)

/-- `handleMouseMove` (`src/unnamed/part_000` lines 163-181): if no button is
held, return immediately (no submission, no state change); otherwise compute
the raw screen-coordinate deltas, update the tracked position, and send them
with the current button flags. -/
def handleMouseMove (st : MouseState) (ev : MouseEventData) :
    MouseState × Option MouseInputEvent :=
  if st.leftButton = false ∧ st.rightButton = false then (st, none)
  else
    let deltaX := ev.clientX - st.lastX
    let deltaY := ev.clientY - st.lastY
    let st := { st with lastX := ev.clientX, lastY := ev.clientY }
    (st, some ⟨deltaX, deltaY, 0, st.leftButton, st.rightButton⟩)

/-- `handleWheel` (`src/unnamed/part_000` lines 186-195): normalize the wheel
delta as `-event.deltaY * 0.01` and send it with the current button flags. -/
def handleWheel (st : MouseState) (ev : WheelEventData) : MouseInputEvent :=
  let scrollDelta := -ev.deltaY * (1 / 100)
  ⟨0, 0, scrollDelta, st.leftButton, st.rightButton⟩

/-- Rolling-window insertion for frontend performance samples
(`src/unnamed/part_000` lines 267-278 and `src/src/App.vue` lines 155-166):
`push` the sample, then if the length exceeds 30, `shift` off the oldest
entry. -/
def pushSample (w : List FrontendPerf) (s : FrontendPerf) : List FrontendPerf :=
  let w := w ++ [s]
  if w.length > 30 then w.drop 1 else w

/-- Per-metric average over the sample window (`avg` closure,
`src/unnamed/part_000` lines 282-284): `reduce`-sum of the metric divided by
the window length. -/
def avgMetric (w : List FrontendPerf) (key : FrontendPerf → ℚ) : ℚ :=
  (w.foldl (fun sum s => sum + key s) 0) / w.length

/-- Mutable client state touched by the render loop and the start/stop
controls (`src/unnamed/part_000` lines 51-91 and 344). -/
structure LoopState where
  isRendering : Bool
  fps : ℤ
  frameCount : Nat
  statusMessage : String
  errorMessage : String
  lastErrorTime : ℚ
  samples : List FrontendPerf
  frontendStats : FrontendPerf
  fpsFrameCount : Nat
  fpsLastUpdate : ℚ
  animationId : Option Nat
  statsInterval : Option Nat
deriving DecidableEq, Repr

/-- `updateFps` (`src/unnamed/part_000` lines 319-329): bump the frame
counter; once a second, recompute the rounded FPS and reset. -/
def updateFps (st : LoopState) (perfNow : ℚ) : LoopState :=
  let st := { st with fpsFrameCount := st.fpsFrameCount + 1 }
  if 1000 ≤ perfNow - st.fpsLastUpdate then
    { st with
      fps := round ((st.fpsFrameCount : ℚ) / ((perfNow - st.fpsLastUpdate) / 1000)),
      fpsFrameCount := 0, fpsLastUpdate := perfNow }
  else st

/-- Timings measured inside a successful iteration of the binary-path render
loop, supplied by the environment. -/
structure FrameFetchOk where
  fetchTime : ℚ
  imageTime : ℚ
  drawTime : ℚ
  totalTime : ℚ
deriving DecidableEq, Repr

/-- One iteration of the binary-path `renderLoop`
(`src/unnamed/part_000` lines 220-313). Returns the new state and the
animation-frame request issued for the next iteration, if any.
Early returns: not rendering, canvas unavailable, 2D context unavailable.
On a successful fetch: push a performance sample into the rolling window,
recompute the averaged frontend stats, bump the frame counter, update FPS,
clear the error message. On any fetch/decode/draw error: record the error
message at most once per second (debounced), change nothing else.
Afterwards, schedule the next frame iff still rendering. -/
def renderLoop (st : LoopState) (canvasOk ctxOk : Bool)
    (fetch : Except String FrameFetchOk) (dateNow perfNow : ℚ) (rafId : Nat) :
    LoopState × Option Nat :=
  if st.isRendering = false then (st, none)
  else if canvasOk = false then (st, none)
  else if ctxOk = false then (st, none)
  else
    let st :=
      match fetch with
      | .ok f =>
        let sample : FrontendPerf := ⟨f.fetchTime, f.imageTime, f.drawTime, f.totalTime, 0⟩
        let samples := pushSample st.samples sample
        let st := { st with samples := samples }
        let st :=
          if samples.length > 0 then
            { st with frontendStats :=
              ⟨avgMetric samples (fun s => s.tauri_call_ms),
               avgMetric samples (fun s => s.image_create_ms),
               avgMetric samples (fun s => s.canvas_draw_ms),
               avgMetric samples (fun s => s.total_loop_ms),
               (st.fps : ℚ)⟩ }
          else st
        let st := { st with frameCount := st.frameCount + 1 }
        let st := updateFps st perfNow
        { st with errorMessage := "" }
      | .error e =>
        if 1000 < dateNow - st.lastErrorTime then
          { st with errorMessage := e, lastErrorTime := dateNow }
        else st
    if st.isRendering then ({ st with animationId := some rafId }, some rafId)
    else (st, none)

/-- `startRendering` (`src/unnamed/part_000` lines 370-385): a no-op while
already rendering; otherwise reset status, request the first animation frame
and install the stats-polling interval. -/
def startRendering (st : LoopState) (perfNow : ℚ) (rafId intervalId : Nat) :
    LoopState :=
  if st.isRendering then st
  else
    { st with
      isRendering := true,
      statusMessage := "Rendering...",
      errorMessage := "",
      fpsLastUpdate := perfNow,
      fpsFrameCount := 0,
      animationId := some rafId,
      statsInterval := some intervalId }

/-- `stopRendering` (`src/unnamed/part_000` lines 390-403): clear the
rendering flag, cancel the pending animation frame and the stats interval,
and reset both ids to null. -/
def stopRendering (st : LoopState) : LoopState :=
  let st := { st with isRendering := false, statusMessage := "Rendering stopped" }
  let st :=
    match st.animationId with
    | some _ => { st with animationId := none }
    | none => st
  match st.statsInterval with
  | some _ => { st with statsInterval := none }
  | none => st

/-- A concrete client state with rendering active, used to instantiate
hypothesis-bearing theorems. -/
def sampleState : LoopState :=
  { isRendering := true, fps := 0, frameCount := 0,
    statusMessage := "Rendering...", errorMessage := "", lastErrorTime := 0,
    samples := [], frontendStats := ⟨0, 0, 0, 0, 0⟩, fpsFrameCount := 0,
    fpsLastUpdate := 0, animationId := some 1, statsInterval := some 2 }

/-- A concrete zero performance sample, used to instantiate theorems. -/
def sampleZero : FrontendPerf := ⟨0, 0, 0, 0, 0⟩

/-- Left-folded metric sum equals the sum of the mapped window. -/
theorem foldl_add_map (w : List FrontendPerf) (key : FrontendPerf → ℚ) (c : ℚ) :
    w.foldl (fun sum s => sum + key s) c = c + (w.map key).sum := by
  induction w generalizing c with
  | nil => simp
  | cons s w ih => simp [ih, add_assoc]

/-- Inserting into a window of exactly 30 entries evicts exactly the oldest
entry before appending the new one. -/
theorem pushSample_full (w : List FrontendPerf) (s : FrontendPerf)
    (h : w.length = 30) : pushSample w s = w.drop 1 ++ [s] := by
  unfold pushSample
  rw [if_pos (by simp [h])]
  rw [List.drop_append_of_le_length (by omega)]

/-- Inserting into a window of at most 30 entries leaves at most 30 entries. -/
theorem pushSample_le (w : List FrontendPerf) (s : FrontendPerf)
    (h : w.length ≤ 30) : (pushSample w s).length ≤ 30 := by
  simp only [pushSample]
  split <;> rename_i hc <;>
    simp only [List.length_drop, List.length_append, List.length_cons,
      List.length_nil, gt_iff_lt, not_lt] at hc ⊢ <;> omega

/-- The window reached by folding any sample sequence into the empty window
is exactly the suffix of the most recent (at most 30) samples. -/
theorem foldl_pushSample (l : List FrontendPerf) :
    l.foldl pushSample [] = l.drop (l.length - 30) := by
  induction l using List.reverseRecOn with
  | nil => simp
  | append_singleton l s ih =>
    rw [List.foldl_append, List.foldl_cons, List.foldl_nil, ih]
    by_cases hl : l.length ≤ 29
    · have h0 : l.length - 30 = 0 := by omega
      have h1 : (l ++ [s]).length - 30 = 0 := by simp; omega
      rw [h0, List.drop_zero, h1, List.drop_zero]
      unfold pushSample
      rw [if_neg (by simp only [List.length_append, List.length_cons,
        List.length_nil, gt_iff_lt, not_lt]; omega)]
    · push_neg at hl
      have hdlen : (l.drop (l.length - 30)).length = 30 := by
        rw [List.length_drop]; omega
      unfold pushSample
      rw [if_pos (by simp [hdlen])]
      rw [List.drop_append_of_le_length (by omega),
          List.drop_drop, List.drop_append_of_le_length (by
            simp only [List.length_append, List.length_cons, List.length_nil]
            omega)]
      have : l.length - 30 + 1 = (l ++ [s]).length - 30 := by simp; omega
      rw [this]

/-- Characterization of a successful `ImageData` construction: the byte count
is exactly four bytes per pixel of the stated dimensions, and the image holds
exactly the given bytes and dimensions. -/
theorem mkImageData_eq_some {bytes : List Nat} {sw sh : Nat} {img : ImageData}
    (h : mkImageData bytes sw sh = some img) :
    bytes.length = 4 * (sw * sh) ∧ sw ≠ 0 ∧ img = ⟨bytes, sw, sh⟩ := by
  unfold mkImageData at h
  split_ifs at h with h1 h2 h3 h4 h5
  push_neg at h2 h4 h5
  have e2 := Nat.div_add_mod (bytes.length / 4) sw
  rw [h4, h5, add_zero] at e2
  refine ⟨?_, h3, (Option.some.inj h).symm⟩
  rw [e2]
  omega

/-- C1: the binary frame path constructs the drawn image directly from the
raw response body bytes — the bitmap drawn is the image decoder applied to
the blob, which is the body itself — and its statement trace contains no
Base64 decode or encode step (the structured path's trace, by contrast,
does contain the Base64 decode). -/
theorem claim_C1 {Img : Type} (createImageBitmap : List Nat → Img)
    (body : List Nat) :
    binaryFrameImage createImageBitmap body = createImageBitmap body
    ∧ RenderStep.base64DecodeStep ∉ binaryRenderSteps
    ∧ RenderStep.base64EncodeStep ∉ binaryRenderSteps
    ∧ RenderStep.base64DecodeStep ∈ structuredRenderSteps :=
  ⟨rfl, by decide, by decide, by decide⟩

/-- C2: a successful structured frame call is a record of exactly the three
fields data/width/height, and the client's Base64 decode of `data` yields
exactly `width * height * 4` bytes, which are exactly the bytes of the built
image. -/
theorem claim_C2 (resp : FrameResponse) (img : ImageData)
    (hsr : structuredRender resp = some img) :
    (∃ bytes, atobDecode resp.data = some bytes
      ∧ bytes.length = resp.width * resp.height * 4
      ∧ img.data.length = resp.width * resp.height * 4)
    ∧ (∀ a b : FrameResponse,
        a.data = b.data → a.width = b.width → a.height = b.height → a = b) := by
  constructor
  · unfold structuredRender at hsr
    cases hd : atobDecode resp.data with
    | none => rw [hd] at hsr; exact Option.noConfusion hsr
    | some bs =>
      rw [hd] at hsr
      dsimp only at hsr
      obtain ⟨hlen, hsw, himg⟩ := mkImageData_eq_some hsr
      rw [List.length_map] at hlen
      refine ⟨bs, rfl, by rw [hlen]; ring, ?_⟩
      rw [himg]
      simp only [List.length_map]
      rw [hlen]
      ring
  · intro a b h1 h2 h3
    cases a
    cases b
    simp only [FrameResponse.mk.injEq]
    exact ⟨h1, h2, h3⟩

/-- Witness for C2 at a concrete response: a 1x1 frame whose Base64 payload
decodes to exactly four bytes. -/
theorem claim_C2_witness :
    structuredRender ⟨"AAAAAA==", 1, 1⟩ = some ⟨[0, 0, 0, 0], 1, 1⟩
    ∧ (∃ bytes, atobDecode (FrameResponse.data ⟨"AAAAAA==", 1, 1⟩) = some bytes
        ∧ bytes.length = 1 * 1 * 4
        ∧ (ImageData.data ⟨[0, 0, 0, 0], 1, 1⟩).length = 1 * 1 * 4) := by
  constructor
  · decide
  · exact (claim_C2 ⟨"AAAAAA==", 1, 1⟩ ⟨[0, 0, 0, 0], 1, 1⟩ (by decide)).1

/-- C3: the performance window never exceeds 30 entries; after inserting more
than 30 samples it holds exactly the 30 most recent ones, the averaged
statistics are computed over exactly those samples, and each insertion into a
full window evicts exactly the oldest sample. -/
theorem claim_C3 (samples extra w : List FrontendPerf) (s : FrontendPerf)
    (key : FrontendPerf → ℚ)
    (hM : 30 < samples.length) (hw : w.length = 30) :
    (extra.foldl pushSample []).length ≤ 30
    ∧ samples.foldl pushSample [] = samples.drop (samples.length - 30)
    ∧ (samples.foldl pushSample []).length = 30
    ∧ avgMetric (samples.foldl pushSample []) key
        = ((samples.drop (samples.length - 30)).map key).sum / 30
    ∧ pushSample w s = w.drop 1 ++ [s] := by
  have hfold := foldl_pushSample samples
  have hlen : (samples.foldl pushSample []).length = 30 := by
    rw [hfold, List.length_drop]; omega
  refine ⟨?_, hfold, hlen, ?_, pushSample_full w s hw⟩
  · rw [foldl_pushSample, List.length_drop]; omega
  · unfold avgMetric
    rw [foldl_add_map, zero_add, hlen, hfold]
    norm_num

/-- Witness for C3 at a concrete sequence of 31 samples and a full window of
30 entries. -/
theorem claim_C3_witness :
    30 < (List.replicate 31 sampleZero).length
    ∧ (List.replicate 30 sampleZero : List FrontendPerf).length = 30
    ∧ ((List.replicate 31 sampleZero).foldl pushSample []).length = 30 := by
  refine ⟨by simp, by simp, ?_⟩
  exact (claim_C3 (List.replicate 31 sampleZero) [] (List.replicate 30 sampleZero)
    sampleZero (fun p => p.total_loop_ms) (by simp) (by simp)).2.2.1

/-- C4: releasing a pointer button submits an ordinary input event carrying
instantaneous state — zero deltas, the released button's flag cleared, and
the other button's flag equal to its current held state. -/
theorem claim_C4 (st : MouseState) (ev : MouseEventData) :
    (ev.button = 0 →
      handleMouseUp st ev
        = ({ st with leftButton := false },
           some ⟨0, 0, 0, false, st.rightButton⟩))
    ∧ (ev.button = 2 →
      handleMouseUp st ev
        = ({ st with rightButton := false },
           some ⟨0, 0, 0, st.leftButton, false⟩)) := by
  constructor
  · intro h0
    simp [handleMouseUp, h0]
  · intro h2
    by_cases h0 : ev.button = 0
    · omega
    · simp [handleMouseUp, h0, h2]

/-- Witness for C4: releasing the left button while both are held. -/
theorem claim_C4_witness :
    handleMouseUp ⟨true, true, 5, 6⟩ ⟨0, 7, 8⟩
      = (⟨false, true, 5, 6⟩, some ⟨0, 0, 0, false, true⟩) :=
  (claim_C4 ⟨true, true, 5, 6⟩ ⟨0, 7, 8⟩).1 rfl

/-- Counterexample for C5 as stated: a wheel event with raw delta 100 is
submitted with scrollDelta -1 (the handler scales by 0.01 and inverts the
sign), not with the raw scroll delta 100. -/
theorem claim_C5_counterexample :
    (handleWheel ⟨false, false, 0, 0⟩ ⟨100⟩).scrollDelta = -1
    ∧ (handleWheel ⟨false, false, 0, 0⟩ ⟨100⟩).scrollDelta ≠ (100 : ℚ) := by
  constructor <;> norm_num [handleWheel]

/-- C5 as amended: pointer-move events are submitted with the raw
screen-coordinate differences since the last event and no transformation,
while wheel events are submitted with the normalized delta
`-deltaY * 0.01` (sign-inverted and scaled), not the raw wheel delta. -/
theorem claim_C5 (st : MouseState) (ev : MouseEventData) (wev : WheelEventData)
    (h : st.leftButton = true ∨ st.rightButton = true) :
    (handleMouseMove st ev).2
      = some ⟨ev.clientX - st.lastX, ev.clientY - st.lastY, 0,
              st.leftButton, st.rightButton⟩
    ∧ (handleMouseMove st ev).1
      = { st with lastX := ev.clientX, lastY := ev.clientY }
    ∧ handleWheel st wev
      = ⟨0, 0, -wev.deltaY * (1 / 100), st.leftButton, st.rightButton⟩ := by
  have hcond : ¬ (st.leftButton = false ∧ st.rightButton = false) := by
    rcases h with h | h <;> simp [h]
  refine ⟨?_, ?_, rfl⟩ <;> simp [handleMouseMove, hcond]

/-- Witness for the amended C5: a drag with the left button held. -/
theorem claim_C5_witness :
    (handleMouseMove ⟨true, false, 3, 4⟩ ⟨0, 10, 20⟩).2
      = some ⟨7, 16, 0, true, false⟩ := by
  have h := (claim_C5 ⟨true, false, 3, 4⟩ ⟨0, 10, 20⟩ ⟨100⟩ (Or.inl rfl)).1
  norm_num at h
  exact h

/-- C6: when the render loop is running, a failed frame fetch is swallowed:
the loop still schedules the next animation frame, keeps rendering, changes
no counters, samples, stats or intervals, and records at most an error
message. -/
theorem claim_C6 (st : LoopState) (e : String) (dateNow perfNow : ℚ)
    (rafId : Nat) (h : st.isRendering = true) :
    (renderLoop st true true (.error e) dateNow perfNow rafId).2 = some rafId
    ∧ (renderLoop st true true (.error e) dateNow perfNow rafId).1.isRendering = true
    ∧ (renderLoop st true true (.error e) dateNow perfNow rafId).1.frameCount
        = st.frameCount
    ∧ (renderLoop st true true (.error e) dateNow perfNow rafId).1.samples
        = st.samples
    ∧ (renderLoop st true true (.error e) dateNow perfNow rafId).1.frontendStats
        = st.frontendStats
    ∧ (renderLoop st true true (.error e) dateNow perfNow rafId).1.statsInterval
        = st.statsInterval
    ∧ ((renderLoop st true true (.error e) dateNow perfNow rafId).1.errorMessage = e
       ∨ (renderLoop st true true (.error e) dateNow perfNow rafId).1.errorMessage
           = st.errorMessage) := by
  by_cases hdb : 1000 < dateNow - st.lastErrorTime <;>
    simp [renderLoop, h, hdb]

/-- Witness for C6 at a concrete running state and failing fetch. -/
theorem claim_C6_witness :
    (renderLoop sampleState true true (.error "fetch failed") 2000 0 7).2
      = some 7 :=
  (claim_C6 sampleState "fetch failed" 2000 0 7 rfl).1

/-- C7: the input submission is fire-and-forget: the submitted payload
carries exactly the five arguments, the caller's state is unchanged, no
error is propagated, and the result is independent of the call's outcome. -/
theorem claim_C7 {σ : Type} (st : σ) (deltaX deltaY scrollDelta : ℚ)
    (leftButton rightButton : Bool) (outcome1 outcome2 : Except String Unit) :
    sendMouseInput st deltaX deltaY scrollDelta leftButton rightButton outcome1
      = (st, ⟨deltaX, deltaY, scrollDelta, leftButton, rightButton⟩, none)
    ∧ sendMouseInput st deltaX deltaY scrollDelta leftButton rightButton outcome1
      = sendMouseInput st deltaX deltaY scrollDelta leftButton rightButton outcome2 := by
  cases outcome1 <;> cases outcome2 <;> exact ⟨rfl, rfl⟩

/-- Counterexample for C8 as stated: the stats record's declared field names
differ from the claimed list — there is no field named fps, get_frame_ms or
serialize_ms in the source declaration. -/
theorem claim_C8_counterexample :
    performanceStatsFields ≠ specStatsFields
    ∧ "fps" ∉ performanceStatsFields
    ∧ "get_frame_ms" ∉ performanceStatsFields
    ∧ "serialize_ms" ∉ performanceStatsFields := by
  refine ⟨by decide, by decide, by decide, by decide⟩

/-- C8 as amended: the stats record has exactly the eight numeric fields
gpu_transfer_ms, data_processing_ms, frame_encoding_ms, bevy_fps,
frame_count, data_size_kb, tauri_get_frame_ms and tauri_serialize_ms: a
stats value is fully determined by them. -/
theorem claim_C8 (a b : PerformanceStats) :
    performanceStatsFields
      = ["gpu_transfer_ms", "data_processing_ms", "frame_encoding_ms",
         "bevy_fps", "frame_count", "data_size_kb", "tauri_get_frame_ms",
         "tauri_serialize_ms"]
    ∧ performanceStatsFields.length = 8
    ∧ (a.gpu_transfer_ms = b.gpu_transfer_ms →
       a.data_processing_ms = b.data_processing_ms →
       a.frame_encoding_ms = b.frame_encoding_ms →
       a.bevy_fps = b.bevy_fps →
       a.frame_count = b.frame_count →
       a.data_size_kb = b.data_size_kb →
       a.tauri_get_frame_ms = b.tauri_get_frame_ms →
       a.tauri_serialize_ms = b.tauri_serialize_ms → a = b) := by
  refine ⟨rfl, rfl, ?_⟩
  intro h1 h2 h3 h4 h5 h6 h7 h8
  cases a
  cases b
  simp only [PerformanceStats.mk.injEq]
  exact ⟨h1, h2, h3, h4, h5, h6, h7, h8⟩

/-- Witness for C8 at a concrete pair of equal-field stats values. -/
theorem claim_C8_witness :
    (⟨1, 2, 3, 4, 5, 6, 7, 8⟩ : PerformanceStats) = ⟨1, 2, 3, 4, 5, 6, 7, 8⟩ :=
  (claim_C8 ⟨1, 2, 3, 4, 5, 6, 7, 8⟩ ⟨1, 2, 3, 4, 5, 6, 7, 8⟩).2.2
    rfl rfl rfl rfl rfl rfl rfl rfl

/-- C9: a pointer-move with no button held submits nothing and leaves the
mouse state, including the tracked last position, unchanged. -/
theorem claim_C9 (st : MouseState) (ev : MouseEventData)
    (hl : st.leftButton = false) (hr : st.rightButton = false) :
    handleMouseMove st ev = (st, none) := by
  simp [handleMouseMove, hl, hr]

/-- Witness for C9 at a concrete idle mouse state. -/
theorem claim_C9_witness :
    handleMouseMove ⟨false, false, 1, 2⟩ ⟨0, 9, 9⟩ = (⟨false, false, 1, 2⟩, none) :=
  claim_C9 ⟨false, false, 1, 2⟩ ⟨0, 9, 9⟩ rfl rfl

/-- C10: starting while rendering is active changes nothing; stopping clears
the rendering flag and resets both the animation-frame id and the stats
interval to null, after which a render-loop invocation schedules nothing and
changes nothing. -/
theorem claim_C10 (st st2 : LoopState) (perfNow : ℚ) (rafId intervalId : Nat)
    (canvasOk ctxOk : Bool) (fetch : Except String FrameFetchOk)
    (dateNow perfNow2 : ℚ) (rid : Nat) (h : st.isRendering = true) :
    startRendering st perfNow rafId intervalId = st
    ∧ (stopRendering st2).isRendering = false
    ∧ (stopRendering st2).animationId = none
    ∧ (stopRendering st2).statsInterval = none
    ∧ renderLoop (stopRendering st2) canvasOk ctxOk fetch dateNow perfNow2 rid
        = (stopRendering st2, none) := by
  have hstop : (stopRendering st2).isRendering = false
      ∧ (stopRendering st2).animationId = none
      ∧ (stopRendering st2).statsInterval = none := by
    rcases h1 : st2.animationId with _ | a <;>
      rcases h2 : st2.statsInterval with _ | b <;>
        simp [stopRendering, h1, h2]
  refine ⟨by simp [startRendering, h], hstop.1, hstop.2.1, hstop.2.2, ?_⟩
  simp [renderLoop, hstop.1]

/-- Witness for C10 at a concrete active state. -/
theorem claim_C10_witness :
    startRendering sampleState 0 3 4 = sampleState :=
  (claim_C10 sampleState sampleState 0 3 4 true true (.error "x") 0 0 9 rfl).1
